import Mathlib

/-!
Shallow embedding of the import-job engine of the scrapper repository:
the Job record (models/Job.js), the job processor loop
(services/jobProcessor.js), the rate-limit manager
(services/rateLimitManager.js) and the Met service pipeline
(services/metService.js).  External I/O (HTTP calls, Mongo saves,
file system) is modelled by explicit oracle parameters; numbers are
Nat/Int/Rat; JavaScript truthiness on strings is modelled by the empty
string, on optional numbers by `Option.getD 0`.
-/

namespace Scrapper

/-- JavaScript `Math.round` for the non-negative rationals that occur here:
round half up, i.e. the floor of `q + 1/2`. -/
def jsRound (q : ℚ) : ℤ := ⌊q + 1/2⌋

/-- JavaScript `String.prototype.includes`: substring test. -/
def jsIncludes (haystack needle : String) : Bool :=
  decide (needle.toList <:+: haystack.toList)

/-- JavaScript `String.prototype.toLowerCase()` for the ASCII data here:
lower-case every character. -/
def jsToLower (s : String) : String := ⟨s.data.map Char.toLower⟩

/-- `Math.ceil(x / 1000)` for a natural number of milliseconds. -/
def ceilDiv1000 (x : ℕ) : ℕ := (x + 999) / 1000

/-- JavaScript truthiness of a possibly-null number (null coerces to 0). -/
def jsTruthyOptNat (o : Option ℕ) : Bool := o.getD 0 ≠ 0

/-! ## Job record (models/Job.js) -/

/-- The `status` enum of the Job schema. -/
inductive JobStatus where
  | pending | initializing | initialized | processing | paused | completed | failed
deriving DecidableEq, Repr

/-- The `pauseReason` enum of the Job schema (`null` is `Option.none`). -/
inductive PauseReason where
  | user | rate_limit | error
deriving DecidableEq, Repr

/-- One entry of the Job's `results` array, with the fields produced by
`MetService.processArtwork`; absent JS fields are `none` / `""`. -/
structure ResultEntry where
  objectId : ℕ
  title : String := ""
  artist : String := ""
  date : String := ""
  imageUrl : String := ""
  rawDescription : String := ""
  shortDescription : String := ""
  expandedDescription : String := ""
  collections : List String := []
  tags : List String := []
  year : Option ℤ := none
  shopifyProductId : Option String := none
  error : Option String := none
  processed : Bool := false
deriving DecidableEq, Repr

/-- The `options` sub-document of the Job schema. -/
structure JobOptions where
  maxItems : ℕ := 100
  skipShopifyUpload : Bool := false
  skipExisting : Bool := true
  defaultPrice : ℚ := 99.99
deriving DecidableEq, Repr

/-- The persistent Job record (the engine-relevant fields of the schema).
Timestamps are naturals (milliseconds). -/
structure JobState where
  status : JobStatus := .pending
  objectIds : List ℕ := []
  processedIds : List ℕ := []
  failedIds : List ℕ := []
  results : List ResultEntry := []
  progress : ℤ := 0
  totalObjects : ℕ := 0
  options : JobOptions := {}
  pauseReason : Option PauseReason := none
  resumeAfter : Option ℕ := none
  error : Option String := none
  completedAt : Option ℕ := none
deriving DecidableEq, Repr

/-- `JobSchema.methods.calculateProgress`:
`if (this.totalObjects === 0) return 0;
 return Math.round((this.processedIds.length / this.totalObjects) * 100)`. -/
def calculateProgress (job : JobState) : ℤ :=
  if job.totalObjects = 0 then 0
  else jsRound (((job.processedIds.length : ℚ) / (job.totalObjects : ℚ)) * 100)

/-- `JobSchema.methods.updateStatus(status, reason = null)`. -/
def updateStatus (job : JobState) (status : JobStatus)
    (reason : Option PauseReason) (now : ℕ) : JobState :=
  let job1 := { job with status := status }
  let job2 :=
    if status = .paused then
      let j := { job1 with pauseReason := reason }
      if reason = some .rate_limit then { j with resumeAfter := some (now + 60000) } else j
    else job1
  if status = .completed then { job2 with completedAt := some now } else job2

/-- The progress formula exactly as the specification states it:
`round(100 * |processedIds| / max(1, totalObjects))`. -/
def claimProgress (processedLen totalObjects : ℕ) : ℤ :=
  jsRound ((100 * (processedLen : ℚ)) / (max 1 totalObjects : ℕ))

/-! ## Rate-limit manager (services/rateLimitManager.js) -/

/-- The thrown `RATE_LIMIT_EXCEEDED` object (`retryAfter` is in seconds). -/
structure ThrottleSignal where
  service : String
  retryAfter : ℕ
deriving DecidableEq, Repr

/-- Per-service window state, one entry of `this.limits`. -/
structure ServiceLimit where
  requests : ℕ
  period : ℕ
  current : ℕ := 0
  resetAt : Option ℕ := none
  rateLimited : Bool := false
  resumeAt : Option ℕ := none
deriving DecidableEq, Repr

/-- `setRateLimited(service, duration)`: arm the hard-throttled flag with
`resumeAt = Date.now() + duration`. -/
def setRateLimited (now duration : ℕ) (l : ServiceLimit) : ServiceLimit :=
  { l with rateLimited := true, resumeAt := some (now + duration) }

/-- `checkRateLimit(service)` of RateLimitManager, with `Date.now()` made an
explicit argument; returns the thrown signal or success, and the new state. -/
def checkRateLimit (service : String) (now : ℕ) (l : ServiceLimit) :
    Except ThrottleSignal Unit × ServiceLimit :=
  -- if (limit.rateLimited) { ... }
  let afterFlag : Except ThrottleSignal ServiceLimit :=
    if l.rateLimited then
      if now ≥ l.resumeAt.getD 0 then
        .ok { l with rateLimited := false, resumeAt := none }
      else
        .error ⟨service, ceilDiv1000 (l.resumeAt.getD 0 - now)⟩
    else .ok l
  match afterFlag with
  | .error sig => (.error sig, l)
  | .ok l1 =>
    -- if (limit.resetAt && Date.now() > limit.resetAt) { current = 0; resetAt = null }
    let l2 := if jsTruthyOptNat l1.resetAt ∧ now > l1.resetAt.getD 0 then
        { l1 with current := 0, resetAt := none } else l1
    -- if (!limit.resetAt) { resetAt = Date.now() + period }
    let l3 := if ¬ jsTruthyOptNat l2.resetAt then
        { l2 with resetAt := some (now + l2.period) } else l2
    if service = "openai" then (.ok (), l3)
    else if l3.current ≥ l3.requests then
      (.error ⟨service, ceilDiv1000 l3.period⟩, setRateLimited now l3.period l3)
    else (.ok (), { l3 with current := l3.current + 1 })

/-- Issue a sequence of `checkRateLimit` calls at the given instants;
returns whether all of them succeeded, and the final state (the JS caller
stops at the first thrown signal). -/
def runCalls (service : String) (l : ServiceLimit) : List ℕ → Bool × ServiceLimit
  | [] => (true, l)
  | t :: ts =>
    match checkRateLimit service t l with
    | (.ok _, l1) => runCalls service l1 ts
    | (.error _, l1) => (false, l1)

/-! ## Met service (services/metService.js) -/

/-- The fields of a Met object record that the engine reads; absent
JavaScript string fields are the empty string, `parseInt` of a
non-numeric `objectBeginDate` is `none` (NaN). -/
structure Artwork where
  isPublicDomain : Bool := false
  primaryImage : String := ""
  title : String := ""
  artistDisplayName : String := ""
  objectDate : String := ""
  objectBeginDate : Option ℤ := none
  objectDescription : String := ""
  medium : String := ""
  classification : String := ""
  objectName : String := ""
  culture : String := ""
  country : String := ""
  region : String := ""
  artistNationality : String := ""
  department : String := ""
deriving DecidableEq, Repr

/-- The post-hoc filter block `query.filters` (absent fields are `""`). -/
structure SearchFilters where
  classification : String := ""
  geolocation : String := ""
  material : String := ""
deriving DecidableEq, Repr

/-- The search criteria consumed by `searchObjects`. -/
structure SearchQuery where
  isPublicDomain : Bool := true
  departmentIds : List ℕ := []
  dateBegin : Option ℤ := none
  dateEnd : Option ℤ := none
  keywords : String := ""
  filters : Option SearchFilters := none
deriving DecidableEq, Repr

/-- The parameters `searchObjects` sends to the Met search endpoint. -/
structure SearchParams where
  hasImages : Bool := true
  isPublicDomain : Bool := false
  departmentIds : Option String := none
  dateBegin : Option ℤ := none
  dateEnd : Option ℤ := none
  q : String := "*"
deriving DecidableEq, Repr

/-- Lines 42-71 of `searchObjects`: build the Met API search parameters
from the query (0 is falsy for the date bounds, `''` for the keywords). -/
def buildSearchParams (query : SearchQuery) : SearchParams :=
  let p : SearchParams := { hasImages := true }
  let p := if query.isPublicDomain then { p with isPublicDomain := true } else p
  let p := if query.departmentIds.length > 0 then
      { p with departmentIds := some (String.intercalate "|" (query.departmentIds.map toString)) }
    else p
  let p := if query.dateBegin.getD 0 ≠ 0 then { p with dateBegin := query.dateBegin } else p
  let p := if query.dateEnd.getD 0 ≠ 0 then { p with dateEnd := query.dateEnd } else p
  if query.keywords ≠ "" then { p with q := query.keywords } else { p with q := "*" }

/-- The per-object filter test of `postFilterResults` (lines 119-192):
classification, geolocation (with the United States special case) and
material (with the `paintings` special case) checks, sequentially. -/
def matchesFiltersInitial (filters : SearchFilters) (a : Artwork) : Bool :=
  let m1 : Bool :=
    if filters.classification ≠ "" ∧ a.classification ≠ "" then
      ((jsToLower a.classification) == (jsToLower filters.classification)) ||
        jsIncludes (jsToLower a.classification) (jsToLower filters.classification)
    else true
  let m2 : Bool :=
    if m1 ∧ filters.geolocation ≠ "" then
      let geolocationLower := (jsToLower filters.geolocation)
      if jsIncludes geolocationLower "united states" || jsIncludes geolocationLower "america" then
        jsIncludes (jsToLower a.culture) "american" ||
          jsIncludes (jsToLower a.country) "united states" ||
          jsIncludes (jsToLower a.artistNationality) "american"
      else
        let cultureLower := (jsToLower a.culture)
        let countryLower := (jsToLower a.country)
        let regionLower := (jsToLower a.region)
        jsIncludes cultureLower geolocationLower ||
          jsIncludes countryLower geolocationLower ||
          jsIncludes regionLower geolocationLower ||
          jsIncludes geolocationLower cultureLower ||
          jsIncludes geolocationLower countryLower
    else m1
  if m1 ∧ m2 ∧ filters.material ≠ "" then
    let materialLower := (jsToLower filters.material)
    if materialLower == "paintings" then
      a.classification == "Paintings" ||
        jsIncludes (jsToLower a.medium) "oil" ||
        jsIncludes (jsToLower a.medium) "paint" ||
        jsIncludes (jsToLower a.objectName) "painting"
    else
      ¬ (a.medium = "") && jsIncludes (jsToLower a.medium) materialLower
  else m1 && m2

/-- `postFilterResults(objectIds, filters)` as the code actually executes
(lines 99-200): only the initial batch of at most `batchSize = 20` ids is
detail-fetched and filtered, then the filtered list is returned; the
follow-up block that would extend the batch sits after this `return` and
is unreachable.  `details` models `getObjectDetails` (`none` covers both
not-found and a caught error); `rateThrottled` models a
`checkRateLimits` throw, which the per-id `catch` turns into a skip. -/
def postFilterResults (details : ℕ → Option Artwork) (rateThrottled : ℕ → Bool)
    (filters : SearchFilters) (objectIds : List ℕ) : List ℕ :=
  let batchSize := 20
  let initialBatch := objectIds.take (min batchSize objectIds.length)
  initialBatch.foldl (fun filteredIds objectId =>
    if rateThrottled objectId then filteredIds
    else
      match details objectId with
      | none => filteredIds
      | some a =>
        if ¬ a.isPublicDomain ∨ a.primaryImage = "" then filteredIds
        else if matchesFiltersInitial filters a then filteredIds ++ [objectId]
        else filteredIds) []

/-- `searchObjects(query)` (lines 38-96): rate check, HTTP search,
optional post-filtering; any error caught by the surrounding `try` makes
it return `[]`.  `rateCheck` models the initial `checkRateLimits` call,
`httpSearch` the axios call (`.ok none` models a response without an
`objectIDs` field, which `|| []` turns into the empty list). -/
def searchObjects (rateCheck : Except ThrottleSignal Unit)
    (httpSearch : SearchParams → Except String (Option (List ℕ)))
    (details : ℕ → Option Artwork) (rateThrottled : ℕ → Bool)
    (query : SearchQuery) : List ℕ :=
  match rateCheck with
  | .error _ => []
  | .ok _ =>
    let searchParams := buildSearchParams query
    match httpSearch searchParams with
    | .error _ => []
    | .ok response =>
      let objectIds := response.getD []
      match query.filters with
      | some f =>
        if objectIds.length > 0 ∧ (f.classification ≠ "" ∨ f.geolocation ≠ "" ∨ f.material ≠ "") then
          postFilterResults details rateThrottled f objectIds
        else objectIds
      | none => objectIds

/-- The `eraPeriods` table of `getEraCollections`; the `Contemporary`
upper bound is `new Date().getFullYear()`, made an explicit argument. -/
def eraPeriods (currentYear : ℤ) : List (String × ℤ × ℤ) :=
  [("Prehistoric / Ancient", -10000, 499),
   ("Classical Antiquity", -800, 499),
   ("Medieval", 500, 1399),
   ("Renaissance", 1400, 1599),
   ("Baroque / Rococo", 1600, 1749),
   ("Enlightenment", 1750, 1799),
   ("19th Century", 1800, 1899),
   ("Early 20th Century", 1900, 1945),
   ("Mid to Late 20th Century", 1946, 1999),
   ("Contemporary", 2000, currentYear)]

/-- `getEraCollections(year)`: all era buckets containing the year;
`none` models `isNaN(year)`. -/
def getEraCollections (currentYear : ℤ) (year : Option ℤ) : List String :=
  match year with
  | none => []
  | some y =>
    (eraPeriods currentYear).foldl
      (fun collections p =>
        if p.2.1 ≤ y ∧ y ≤ p.2.2 then collections ++ [p.1] else collections) []

/-- The keyword table of `getThemeCollections`. -/
def themeCollectionsTable : List (String × List String) :=
  [("People", ["people", "person", "human", "figure", "portrait", "man", "woman", "boy", "girl"]),
   ("Historical Figures", ["king", "queen", "emperor", "empress", "president", "ruler", "historical figure"]),
   ("Scientists, Artists, Writers", ["scientist", "artist", "writer", "composer", "inventor", "author", "philosopher"]),
   ("Royalty / Nobility", ["royal", "king", "queen", "prince", "princess", "duke", "duchess", "noble", "court"]),
   ("Portraits", ["portrait"]),
   ("Events", ["event", "scene", "ceremony", "celebration", "festival", "ritual"]),
   ("Battles / Wars", ["battle", "war", "military", "soldier", "army", "combat", "warrior", "conflict"]),
   ("Scientific Discoveries", ["discovery", "science", "experiment", "scientific", "laboratory"]),
   ("Inventions", ["invention", "machine", "device", "technology", "mechanical"]),
   ("Political Events", ["political", "government", "state", "ceremony", "diplomatic", "revolution"]),
   ("Nature", ["nature", "natural", "landscape", "outdoor", "garden", "field"]),
   ("Animals", ["animal", "beast", "bird", "fish", "dog", "cat", "horse", "lion", "tiger", "creature"]),
   ("Landscapes", ["landscape", "scenery", "vista", "mountain", "river", "lake", "ocean", "sea", "forest"]),
   ("Astronomy", ["astronomy", "star", "planet", "moon", "sun", "celestial", "space", "constellation", "galaxy", "cosmic"]),
   ("Botanical / Plants", ["botanical", "plant", "flower", "tree", "garden", "leaf", "blossom", "fruit", "floral"]),
   ("Mythology & Religion", ["myth", "mythology", "god", "goddess", "deity", "religious", "religion", "sacred", "holy"]),
   ("Greek / Roman Myths", ["greek", "roman", "myth", "olympus", "zeus", "apollo", "athens", "hercules", "myth"]),
   ("Biblical Scenes", ["bible", "biblical", "jesus", "christ", "apostle", "saint", "madonna", "angel", "virgin"]),
   ("Eastern Religions", ["buddha", "buddhist", "hindu", "islam", "islamic", "eastern religion", "zen", "yoga"]),
   ("Family & Domestic Life", ["family", "domestic", "home", "household", "interior", "daily life", "domestic scene"]),
   ("Childhood", ["child", "children", "boy", "girl", "infant", "baby", "youth", "childhood", "play", "toys"]),
   ("Motherhood", ["mother", "motherhood", "maternal", "nurturing", "child", "baby", "madonna"]),
   ("Everyday Life", ["everyday", "daily", "routine", "ordinary", "common", "daily life", "life scene"]),
   ("Fantasy & Imagination", ["fantasy", "imagination", "dream", "imaginary", "magical", "surreal", "otherworldly"]),
   ("Allegorical Scenes", ["allegory", "allegorical", "symbolic", "metaphor", "personification", "symbol"]),
   ("Fairy Tales", ["fairy tale", "fairy", "tale", "story", "folklore", "legend", "fable", "fantasy"]),
   ("Fantastical Creatures", ["dragon", "unicorn", "griffin", "phoenix", "monster", "mythical", "creature", "beast"]),
   ("Architecture & Cities", ["architecture", "building", "structure", "city", "town", "urban", "construction"]),
   ("Buildings", ["building", "house", "palace", "castle", "cathedral", "church", "temple", "monument", "structure"]),
   ("Historical Maps", ["map", "cartography", "atlas", "geography", "historical map", "territory"]),
   ("Cityscapes", ["cityscape", "skyline", "urban", "city", "town", "street", "avenue", "building"]),
   ("Technology & Innovation", ["technology", "innovation", "invention", "machine", "engineering", "progress", "modern"]),
   ("Machines", ["machine", "mechanical", "engine", "device", "apparatus", "mechanism", "technological"]),
   ("Transportation", ["transportation", "vehicle", "ship", "boat", "train", "carriage", "automobile", "travel"]),
   ("Industrial Scenes", ["industrial", "factory", "industry", "manufacturing", "production", "labor", "worker"]),
   ("American Art", ["america", "american", "united states", "usa", "u.s.", "new york", "california"]),
   ("European Art", ["europe", "european", "france", "french", "italy", "italian", "british", "england", "english", "spain", "spanish"]),
   ("Asian Art", ["asia", "asian", "china", "chinese", "japan", "japanese", "india", "indian", "korea", "korean"]),
   ("African Art", ["africa", "african", "egypt", "egyptian"])]

/-- `getThemeCollections(artwork)`: keyword-matched theme buckets plus
classification, culture, department and country additions. -/
def getThemeCollections (artwork : Artwork) : List String × List String :=
  let searchText :=
    jsToLower (artwork.title ++ " " ++ artwork.objectDescription ++ " " ++ artwork.medium
      ++ " " ++ artwork.classification)
  let step1 := themeCollectionsTable.foldl
    (fun acc p =>
      if p.2.any (fun keyword => jsIncludes searchText (jsToLower keyword)) then
        if acc.1.contains p.1 then acc else (acc.1 ++ [p.1], acc.2 ++ [p.1])
      else acc) ([], [])
  let step2 :=
    if artwork.classification ≠ "" ∧ ¬ step1.1.contains artwork.classification then
      (step1.1 ++ [artwork.classification], step1.2 ++ [artwork.classification])
    else step1
  let step3 :=
    if artwork.culture ≠ "" then
      let withTag := (step2.1, step2.2 ++ [artwork.culture])
      if jsIncludes (jsToLower artwork.culture) "american" ||
          jsIncludes (jsToLower artwork.culture) "british" ||
          jsIncludes (jsToLower artwork.culture) "french" ||
          jsIncludes (jsToLower artwork.culture) "italian" ||
          jsIncludes (jsToLower artwork.culture) "chinese" ||
          jsIncludes (jsToLower artwork.culture) "japanese" then
        (withTag.1 ++ [artwork.culture ++ " Art"], withTag.2)
      else withTag
    else step2
  let step4 :=
    if artwork.department ≠ "" ∧ ¬ step3.1.contains artwork.department then
      (step3.1 ++ [artwork.department], step3.2 ++ [artwork.department])
    else step3
  if artwork.country ≠ "" then (step4.1, step4.2 ++ [artwork.country]) else step4

/-- The description triple returned by `OpenAIService.generateDescriptions`
(a total operation: its own `catch` falls back to synthesized text). -/
structure Descriptions where
  rawDescription : String := ""
  shortDescription : String := ""
  expandedDescription : String := ""
deriving DecidableEq, Repr

/-- `processArtwork(objectId, options)` (lines 467-549).  The external
collaborators are oracle parameters: `getDetails` for
`getObjectDetails` (which returns `null` on any of its own errors),
`download` for `downloadImage` (`none` on failure), `generate` for the
total description generator, and `upload` for
`shopify.uploadArtwork`, the one collaborator that can throw; its
failure is caught by the inner `catch`, which records the item-level
error string. -/
def processArtwork (getDetails : ℕ → Option Artwork)
    (download : String → ℕ → Option String)
    (generate : Artwork → Descriptions)
    (upload : Artwork → String → String → String → List String → List String → ℚ →
      Except String String)
    (currentYear : ℤ) (objectId : ℕ) (options : JobOptions) : Option ResultEntry :=
  match getDetails objectId with
  | none => none
  | some artwork =>
    if ¬ artwork.isPublicDomain ∨ artwork.primaryImage = "" then none
    else
      match download artwork.primaryImage objectId with
      | none => none
      | some imagePath =>
        let d := generate artwork
        let year := artwork.objectBeginDate
        let eraCollections := getEraCollections currentYear year
        let themed := getThemeCollections artwork
        let allCollections := eraCollections ++ themed.1
        let result : ResultEntry :=
          { objectId := objectId
            title := artwork.title
            artist := if artwork.artistDisplayName ≠ "" then artwork.artistDisplayName
              else "Unknown Artist"
            date := if artwork.objectDate ≠ "" then artwork.objectDate else "Unknown"
            imageUrl := artwork.primaryImage
            rawDescription := d.rawDescription
            shortDescription := d.shortDescription
            expandedDescription := d.expandedDescription
            collections := allCollections
            tags := themed.2
            year := year }
        if ¬ options.skipShopifyUpload then
          match upload artwork d.shortDescription d.expandedDescription imagePath
              allCollections themed.2
              (if options.defaultPrice ≠ 0 then options.defaultPrice else 99.99) with
          | .ok productId =>
            some { result with shopifyProductId := some productId, processed := true }
          | .error m =>
            some { result with error := some ("Shopify upload failed: " ++ m), processed := true }
        else some { result with processed := true }

/-! ## Job processor (services/jobProcessor.js) -/

/-- What one `processArtwork` call does from the item loop's point of
view: a non-null result, a null result, a thrown `RATE_LIMIT_EXCEEDED`
signal (`retryAfter` in seconds) or another thrown error. -/
inductive ItemOutcome where
  | success (result : ResultEntry)
  | skip
  | rateLimit (retryAfter : ℕ)
  | failure (message : String)

/-- A non-throwing `processArtwork` return value as an item outcome. -/
def artworkOutcome (r : Option ResultEntry) : ItemOutcome :=
  match r with
  | some result => .success result
  | none => .skip

/-- Result of one iteration of the item loop: keep iterating, or stop
(the rate-limit `return`). -/
inductive StepResult where
  | proceed (job : JobState)
  | halt (job : JobState)
deriving DecidableEq, Repr

/-- The body of the `processJob` item loop (lines 221-261) for one
object id: skip if already processed; on a non-null result push the
result and the id and recompute progress; on a `RATE_LIMIT_EXCEEDED`
throw pause the job and stop; on another throw record the id in
`failedIds` (if absent) and keep going. -/
def processItem (oracle : ℕ → ItemOutcome) (now : ℕ) (job : JobState)
    (objectId : ℕ) : StepResult :=
  if job.processedIds.contains objectId then .proceed job
  else
    match oracle objectId with
    | .success result =>
      let job1 := { job with results := job.results ++ [result],
                             processedIds := job.processedIds ++ [objectId] }
      .proceed { job1 with progress := calculateProgress job1 }
    | .skip => .proceed job
    | .rateLimit retryAfter =>
      let job1 := updateStatus job .paused (some .rate_limit) now
      .halt { job1 with resumeAfter := some (now + retryAfter * 1000) }
    | .failure _message =>
      .proceed (if job.failedIds.contains objectId then job
        else { job with failedIds := job.failedIds ++ [objectId] })

/-- The item loop of `processJob` over the remaining object ids,
followed by the completion block (lines 267-270).  Also returns the
list of ids on which `processArtwork` was actually invoked. -/
def processLoop (oracle : ℕ → ItemOutcome) (now : ℕ) :
    List ℕ → JobState → JobState × List ℕ
  | [], job => ({ job with status := .completed, completedAt := some now }, [])
  | objectId :: rest, job =>
    let attempted : List ℕ := if job.processedIds.contains objectId then [] else [objectId]
    match processItem oracle now job objectId with
    | .proceed job1 =>
      let r := processLoop oracle now rest job1
      (r.1, attempted ++ r.2)
    | .halt job1 => (job1, attempted)

/-- `processJob(job)` (lines 211-279): set the status to `processing`,
then iterate the loop `for (let i = job.processedIds.length;
i < job.objectIds.length; i++)`; returns the final record and the
attempted ids. -/
def processJob (oracle : ℕ → ItemOutcome) (now : ℕ) (job : JobState) :
    JobState × List ℕ :=
  let job0 := { job with status := .processing }
  processLoop oracle now (job0.objectIds.drop job0.processedIds.length) job0

/-- `initializeJob(job)` (lines 97-209).  The per-source id resolution
(the `searchObjects` / `filterForArtTypes` calls of lines 103-174) and
the fallback broad search (lines 177-189) are oracle parameters; either
may throw, and a throw lands in the `catch` that marks the job failed.
On success `options.maxItems` truncates the list (JS truthiness: a zero
`maxItems` disables the cap), and `objectIds` / `totalObjects` /
`status` are written. -/
def initializeJob (resolveIds fallbackResult : Except String (List ℕ))
    (job : JobState) : JobState :=
  let job0 := { job with status := .processing }
  match resolveIds with
  | .error e => { job0 with status := .failed, error := some e }
  | .ok ids0 =>
    match (if ids0.length = 0 then fallbackResult else .ok ids0) with
    | .error e => { job0 with status := .failed, error := some e }
    | .ok ids1 =>
      let ids2 := if job.options.maxItems ≠ 0 ∧ job.options.maxItems > 0 ∧
          ids1.length > job.options.maxItems then
          ids1.take job.options.maxItems
        else ids1
      { job0 with objectIds := ids2, totalObjects := ids2.length, status := .initialized }

/-- The eligibility predicate of `getNextJob` (the Mongo `$or` query):
`pending`, `initialized`, or `paused` with `pauseReason = rate_limit`
and `resumeAfter <= now` (a record without `resumeAfter` never matches
`$lte`). -/
def eligibleForProcessing (now : ℕ) (job : JobState) : Bool :=
  job.status = .pending || job.status = .initialized ||
    (job.status = .paused && job.pauseReason = some .rate_limit &&
      (match job.resumeAfter with
       | some t => t ≤ now
       | none => false))

/-- The `POST /:id/resume` route handler (routes/jobRoutes.js lines
131-148) on a found job: any `paused` job is set to `initialized`,
regardless of `pauseReason` or `resumeAfter`; otherwise a 400 error. -/
def resumeRoute (now : ℕ) (job : JobState) : Except String JobState :=
  if job.status = .paused then .ok (updateStatus job .initialized none now)
  else .error "Cannot resume job with this status"

/-! ## Derived notions used by the statements -/

/-- The record a `StepResult` carries, whichever way the loop went. -/
def StepResult.state : StepResult → JobState
  | .proceed job => job
  | .halt job => job

/-- The Job-record invariant exactly as the specification states it:
`processedIds ⊆ objectIds`, no duplicates in `processedIds`, and
`progress == round(100 * |processedIds| / max(1, totalObjects))`. -/
def jobInvariant (job : JobState) : Prop :=
  (∀ x ∈ job.processedIds, x ∈ job.objectIds) ∧
  job.processedIds.Nodup ∧
  job.progress = claimProgress job.processedIds.length job.totalObjects

/-- The invariant together with the structural link the engine maintains:
`totalObjects` is the snapshot `|objectIds|` taken at initialization. -/
def jobInvariantFull (job : JobState) : Prop :=
  jobInvariant job ∧ job.totalObjects = job.objectIds.length

/-- A detail oracle under which every id resolves to an eligible painting;
used to evaluate `postFilterResults` on a concrete candidate set. -/
def detailsAllPaintings : ℕ → Option Artwork := fun _ =>
  some { isPublicDomain := true, primaryImage := "img", classification := "Paintings" }

/-- An item oracle under which every id succeeds with a bare result. -/
def oracleAllSucceed : ℕ → ItemOutcome := fun i => .success { objectId := i }

/-- A concrete job whose first id was processed: `processedIds` is the
one-element prefix of `objectIds`. -/
def takeOneJob : JobState :=
  { status := .initialized, objectIds := [4, 9], processedIds := [4], totalObjects := 2 }

/-- A concrete `paused(rate_limit)` job whose `resumeAfter` is at 1000 ms. -/
def pausedAt1000 : JobState :=
  { status := .paused, pauseReason := some .rate_limit, resumeAfter := some 1000 }

/-- A concrete job resuming after a rate-limit pause: ids `[1, 2]`, id 1
already attempted and failed, id 2 throttled before completing. -/
def resumingJob : JobState :=
  { status := .initialized, objectIds := [1, 2], processedIds := [],
    failedIds := [1], totalObjects := 2 }

/-- A fresh per-service window with a budget of 2 requests per 1000 ms
(the `shopify` entry of `this.limits`). -/
def shopifyLimit : ServiceLimit := { requests := 2, period := 1000 }

/-! ## Helper lemmas -/

theorem jsRound_zero : jsRound 0 = 0 := by
  unfold jsRound
  rw [zero_add, Int.floor_eq_zero_iff]
  constructor <;> norm_num

theorem claimProgress_zero (t : ℕ) : claimProgress 0 t = 0 := by
  unfold claimProgress
  norm_num [jsRound_zero]

theorem claimProgress_of_ne_zero (p t : ℕ) (ht : t ≠ 0) :
    claimProgress p t = jsRound (((p : ℚ) / (t : ℚ)) * 100) := by
  unfold claimProgress
  have hmax : (max 1 t : ℕ) = t := Nat.max_eq_right (Nat.one_le_iff_ne_zero.mpr ht)
  rw [hmax]
  congr 1
  ring

theorem calculateProgress_eq_claim (job : JobState)
    (h : job.totalObjects = 0 → job.processedIds.length = 0) :
    calculateProgress job = claimProgress job.processedIds.length job.totalObjects := by
  unfold calculateProgress
  by_cases h0 : job.totalObjects = 0
  · rw [if_pos h0, h h0, claimProgress_zero]
  · rw [if_neg h0, claimProgress_of_ne_zero _ _ h0]

theorem contains_false_not_mem {l : List ℕ} {a : ℕ} (h : ¬ l.contains a = true) : a ∉ l := by
  simpa using h

theorem nodup_append_singleton {l : List ℕ} {a : ℕ} (hn : l.Nodup) (h : a ∉ l) :
    (l ++ [a]).Nodup :=
  hn.append (List.nodup_singleton a)
    (by intro x hx hxa; simp at hxa; exact h (hxa ▸ hx))

theorem updateStatus_fields (job : JobState) (status : JobStatus)
    (reason : Option PauseReason) (now : ℕ) :
    (updateStatus job status reason now).objectIds = job.objectIds ∧
    (updateStatus job status reason now).totalObjects = job.totalObjects ∧
    (updateStatus job status reason now).processedIds = job.processedIds ∧
    (updateStatus job status reason now).failedIds = job.failedIds ∧
    (updateStatus job status reason now).results = job.results ∧
    (updateStatus job status reason now).progress = job.progress := by
  unfold updateStatus
  split <;> split <;> simp_all

theorem processItem_contains_eq (oracle : ℕ → ItemOutcome) (now : ℕ) (job : JobState)
    (objectId : ℕ) (hc : job.processedIds.contains objectId = true) :
    processItem oracle now job objectId = .proceed job := by
  unfold processItem
  rw [if_pos hc]

theorem processItem_success_eq (oracle : ℕ → ItemOutcome) (now : ℕ) (job : JobState)
    (objectId : ℕ) (result : ResultEntry)
    (hc : job.processedIds.contains objectId = false)
    (ho : oracle objectId = .success result) :
    processItem oracle now job objectId =
      .proceed { job with results := job.results ++ [result],
                          processedIds := job.processedIds ++ [objectId],
                          progress := calculateProgress
                            { job with results := job.results ++ [result],
                                       processedIds := job.processedIds ++ [objectId] } } := by
  unfold processItem
  rw [if_neg (by rw [hc]; simp), ho]

theorem processItem_skip_eq (oracle : ℕ → ItemOutcome) (now : ℕ) (job : JobState)
    (objectId : ℕ) (hc : job.processedIds.contains objectId = false)
    (ho : oracle objectId = .skip) :
    processItem oracle now job objectId = .proceed job := by
  unfold processItem
  rw [if_neg (by rw [hc]; simp), ho]

theorem processItem_rateLimit_eq (oracle : ℕ → ItemOutcome) (now : ℕ) (job : JobState)
    (objectId retryAfter : ℕ) (hc : job.processedIds.contains objectId = false)
    (ho : oracle objectId = .rateLimit retryAfter) :
    processItem oracle now job objectId =
      .halt { updateStatus job .paused (some .rate_limit) now with
                resumeAfter := some (now + retryAfter * 1000) } := by
  unfold processItem
  rw [if_neg (by rw [hc]; simp), ho]

theorem processItem_failure_eq (oracle : ℕ → ItemOutcome) (now : ℕ) (job : JobState)
    (objectId : ℕ) (message : String) (hc : job.processedIds.contains objectId = false)
    (ho : oracle objectId = .failure message) :
    processItem oracle now job objectId =
      .proceed (if job.failedIds.contains objectId then job
        else { job with failedIds := job.failedIds ++ [objectId] }) := by
  unfold processItem
  rw [if_neg (by rw [hc]; simp), ho]

theorem processItem_fields (oracle : ℕ → ItemOutcome) (now : ℕ) (job : JobState)
    (objectId : ℕ) :
    (processItem oracle now job objectId).state.objectIds = job.objectIds ∧
    (processItem oracle now job objectId).state.totalObjects = job.totalObjects ∧
    (∀ x ∈ job.processedIds, x ∈ (processItem oracle now job objectId).state.processedIds) := by
  cases hc : job.processedIds.contains objectId
  · cases ho : oracle objectId
    · rename_i result
      rw [processItem_success_eq oracle now job objectId result hc ho]
      refine ⟨by simp [StepResult.state], by simp [StepResult.state], ?_⟩
      intro x hx
      simp [StepResult.state]
      exact Or.inl hx
    · rw [processItem_skip_eq oracle now job objectId hc ho]
      exact ⟨rfl, rfl, fun x hx => hx⟩
    · rename_i retryAfter
      rw [processItem_rateLimit_eq oracle now job objectId retryAfter hc ho]
      have h := updateStatus_fields job .paused (some .rate_limit) now
      exact ⟨by simp [StepResult.state, h.1], by simp [StepResult.state, h.2.1],
        fun x hx => by simp [StepResult.state, h.2.2.1]; exact hx⟩
    · rename_i message
      rw [processItem_failure_eq oracle now job objectId message hc ho]
      split <;> exact ⟨rfl, rfl, fun x hx => hx⟩
  · rw [processItem_contains_eq oracle now job objectId hc]
    exact ⟨rfl, rfl, fun x hx => hx⟩

theorem processItem_inv (oracle : ℕ → ItemOutcome) (now : ℕ) (job : JobState)
    (objectId : ℕ) (hmem : objectId ∈ job.objectIds) (hinv : jobInvariantFull job) :
    jobInvariantFull (processItem oracle now job objectId).state := by
  obtain ⟨⟨hsub, hnodup, hprog⟩, hlink⟩ := hinv
  cases hc : job.processedIds.contains objectId
  · cases ho : oracle objectId
    · rename_i result
      rw [processItem_success_eq oracle now job objectId result hc ho]
      have hnm : objectId ∉ job.processedIds := contains_false_not_mem (by rw [hc]; simp)
      have hne : job.objectIds.length ≠ 0 :=
        (List.length_pos.mpr (List.ne_nil_of_mem hmem)).ne'
      refine ⟨⟨?_, ?_, ?_⟩, ?_⟩
      · intro x hx
        simp only [StepResult.state] at hx ⊢
        simp only [List.mem_append, List.mem_singleton] at hx
        rcases hx with hx | hx
        · exact hsub x hx
        · exact hx ▸ hmem
      · simpa only [StepResult.state] using nodup_append_singleton hnodup hnm
      · simp only [StepResult.state]
        rw [calculateProgress_eq_claim]
        intro h0
        exact absurd (hlink ▸ h0) hne
      · simpa only [StepResult.state] using hlink
    · rw [processItem_skip_eq oracle now job objectId hc ho]
      exact ⟨⟨hsub, hnodup, hprog⟩, hlink⟩
    · rename_i retryAfter
      rw [processItem_rateLimit_eq oracle now job objectId retryAfter hc ho]
      have h := updateStatus_fields job .paused (some .rate_limit) now
      refine ⟨⟨?_, ?_, ?_⟩, ?_⟩
      · simpa only [StepResult.state, h.1, h.2.2.1] using hsub
      · simpa only [StepResult.state, h.2.2.1] using hnodup
      · simpa only [StepResult.state, h.2.2.1, h.2.1, h.2.2.2.2.2] using hprog
      · simpa only [StepResult.state, h.1, h.2.1] using hlink
    · rename_i message
      rw [processItem_failure_eq oracle now job objectId message hc ho]
      split <;> exact ⟨⟨hsub, hnodup, hprog⟩, hlink⟩
  · rw [processItem_contains_eq oracle now job objectId hc]
    exact ⟨⟨hsub, hnodup, hprog⟩, hlink⟩

theorem not_mem_contains_false {l : List ℕ} {a : ℕ} (h : a ∉ l) : l.contains a = false := by
  simpa using h

theorem processLoop_nil_eq (oracle : ℕ → ItemOutcome) (now : ℕ) (job : JobState) :
    processLoop oracle now [] job =
      ({ job with status := .completed, completedAt := some now }, []) := rfl

theorem processLoop_cons_proceed (oracle : ℕ → ItemOutcome) (now : ℕ) (job job1 : JobState)
    (objectId : ℕ) (rest : List ℕ)
    (h : processItem oracle now job objectId = .proceed job1) :
    processLoop oracle now (objectId :: rest) job =
      ((processLoop oracle now rest job1).1,
        (if job.processedIds.contains objectId then [] else [objectId]) ++
          (processLoop oracle now rest job1).2) := by
  simp only [processLoop, h]

theorem processLoop_cons_halt (oracle : ℕ → ItemOutcome) (now : ℕ) (job job1 : JobState)
    (objectId : ℕ) (rest : List ℕ)
    (h : processItem oracle now job objectId = .halt job1) :
    processLoop oracle now (objectId :: rest) job =
      (job1, if job.processedIds.contains objectId then [] else [objectId]) := by
  simp only [processLoop, h]

theorem processLoop_inv (oracle : ℕ → ItemOutcome) (now : ℕ) (rest : List ℕ) :
    ∀ job : JobState, (∀ x ∈ rest, x ∈ job.objectIds) → jobInvariantFull job →
      jobInvariantFull (processLoop oracle now rest job).1 := by
  induction rest with
  | nil =>
    intro job _ hinv
    rw [processLoop_nil_eq]
    exact hinv
  | cons objectId rest ih =>
    intro job hrest hinv
    have hmem : objectId ∈ job.objectIds := hrest objectId (List.mem_cons_self _ _)
    have hstep_inv := processItem_inv oracle now job objectId hmem hinv
    have hfields := processItem_fields oracle now job objectId
    cases hstep : processItem oracle now job objectId with
    | proceed job1 =>
      rw [hstep] at hstep_inv hfields
      simp only [StepResult.state] at hstep_inv hfields
      rw [processLoop_cons_proceed oracle now job job1 objectId rest hstep]
      exact ih job1 (fun x hx => hfields.1 ▸ hrest x (List.mem_cons_of_mem _ hx)) hstep_inv
    | halt job1 =>
      rw [hstep] at hstep_inv
      simp only [StepResult.state] at hstep_inv
      rw [processLoop_cons_halt oracle now job job1 objectId rest hstep]
      exact hstep_inv

theorem processLoop_fields (oracle : ℕ → ItemOutcome) (now : ℕ) (rest : List ℕ) :
    ∀ job : JobState,
      (processLoop oracle now rest job).1.objectIds = job.objectIds ∧
      (processLoop oracle now rest job).1.totalObjects = job.totalObjects := by
  induction rest with
  | nil =>
    intro job
    rw [processLoop_nil_eq]
    exact ⟨rfl, rfl⟩
  | cons objectId rest ih =>
    intro job
    have hfields := processItem_fields oracle now job objectId
    cases hstep : processItem oracle now job objectId with
    | proceed job1 =>
      rw [hstep] at hfields
      simp only [StepResult.state] at hfields
      rw [processLoop_cons_proceed oracle now job job1 objectId rest hstep]
      exact ⟨(ih job1).1.trans hfields.1, (ih job1).2.trans hfields.2.1⟩
    | halt job1 =>
      rw [hstep] at hfields
      simp only [StepResult.state] at hfields
      rw [processLoop_cons_halt oracle now job job1 objectId rest hstep]
      exact ⟨hfields.1, hfields.2.1⟩

theorem processLoop_attempts_not_mem (oracle : ℕ → ItemOutcome) (now : ℕ) (rest : List ℕ) :
    ∀ (job : JobState) (a : ℕ), a ∈ (processLoop oracle now rest job).2 →
      a ∉ job.processedIds := by
  induction rest with
  | nil =>
    intro job a ha
    rw [processLoop_nil_eq] at ha
    simp at ha
  | cons objectId rest ih =>
    intro job a ha
    have hfields := processItem_fields oracle now job objectId
    cases hstep : processItem oracle now job objectId with
    | proceed job1 =>
      rw [hstep] at hfields
      simp only [StepResult.state] at hfields
      rw [processLoop_cons_proceed oracle now job job1 objectId rest hstep] at ha
      simp only [List.mem_append] at ha
      rcases ha with ha | ha
      · by_cases hc : job.processedIds.contains objectId = true
        · rw [if_pos hc] at ha
          simp at ha
        · rw [if_neg hc] at ha
          simp at ha
          exact ha ▸ contains_false_not_mem hc
      · intro hmem
        exact ih job1 a ha (hfields.2.2 a hmem)
    | halt job1 =>
      rw [processLoop_cons_halt oracle now job job1 objectId rest hstep] at ha
      by_cases hc : job.processedIds.contains objectId = true
      · rw [if_pos hc] at ha
        simp at ha
      · rw [if_neg hc] at ha
        simp at ha
        exact ha ▸ contains_false_not_mem hc

theorem processLoop_attempts_head (oracle : ℕ → ItemOutcome) (now : ℕ) (job : JobState)
    (objectId : ℕ) (rest : List ℕ) (hc : job.processedIds.contains objectId = false) :
    (processLoop oracle now (objectId :: rest) job).2.head? = some objectId := by
  have hnm : objectId ∉ job.processedIds := contains_false_not_mem (by rw [hc]; simp)
  cases hstep : processItem oracle now job objectId with
  | proceed job1 =>
    rw [processLoop_cons_proceed oracle now job job1 objectId rest hstep]
    simp [hnm]
  | halt job1 =>
    rw [processLoop_cons_halt oracle now job job1 objectId rest hstep]
    simp [hnm]

theorem checkRateLimit_first (service : String) (hsvc : service ≠ "openai")
    (B period t1 : ℕ) (hB : 0 < B) :
    checkRateLimit service t1 { requests := B, period := period } =
      (.ok (),
        { requests := B, period := period, current := 1,
          resetAt := some (t1 + period) }) := by
  simp [checkRateLimit, jsTruthyOptNat, hsvc, Nat.le_zero, hB.ne']

theorem checkRateLimit_mid (service : String) (hsvc : service ≠ "openai")
    (B period k R now : ℕ) (hR : R ≠ 0) (hnow : ¬ now > R) (hk : k < B) :
    checkRateLimit service now
      { requests := B, period := period, current := k, resetAt := some R } =
      (.ok (),
        { requests := B, period := period, current := k + 1,
          resetAt := some R }) := by
  simp [checkRateLimit, jsTruthyOptNat, hsvc, hR, hnow, Nat.not_le.mpr hk]

theorem checkRateLimit_exhausted (service : String) (hsvc : service ≠ "openai")
    (B period R now : ℕ) (hR : R ≠ 0) (hnow : ¬ now > R) :
    checkRateLimit service now
      { requests := B, period := period, current := B, resetAt := some R } =
      (.error ⟨service, ceilDiv1000 period⟩,
        { requests := B, period := period, current := B, resetAt := some R,
          rateLimited := true, resumeAt := some (now + period) }) := by
  simp [checkRateLimit, jsTruthyOptNat, hsvc, hR, hnow, setRateLimited]

theorem checkRateLimit_recover (service : String) (hsvc : service ≠ "openai")
    (B period c R S now : ℕ) (hS : S ≤ now) (hR : R < now) (hRne : R ≠ 0) (hB : 0 < B) :
    checkRateLimit service now
      { requests := B, period := period, current := c, resetAt := some R,
        rateLimited := true, resumeAt := some S } =
      (.ok (),
        { requests := B, period := period, current := 1,
          resetAt := some (now + period) }) := by
  simp [checkRateLimit, jsTruthyOptNat, hsvc, hS, hR, hRne, Nat.le_zero, hB.ne']

theorem runCalls_within (service : String) (hsvc : service ≠ "openai")
    (B period t1 : ℕ) (hper : 0 < period) :
    ∀ (ts : List ℕ) (k : ℕ), (∀ t ∈ ts, t ≤ t1 + period) → k + ts.length ≤ B →
    runCalls service
      { requests := B, period := period, current := k, resetAt := some (t1 + period) } ts =
      (true,
        { requests := B, period := period, current := k + ts.length,
          resetAt := some (t1 + period) }) := by
  intro ts
  induction ts with
  | nil =>
    intro k _ _
    simp [runCalls]
  | cons t ts ih =>
    intro k hts hk
    have hR : t1 + period ≠ 0 := by omega
    have hnow : ¬ t > t1 + period := by
      have := hts t (List.mem_cons_self _ _)
      omega
    have hkB : k < B := by
      rw [List.length_cons] at hk
      omega
    have hlen : k + (t :: ts).length = k + 1 + ts.length := by
      rw [List.length_cons]
      omega
    rw [hlen]
    simp only [runCalls,
      checkRateLimit_mid service hsvc B period k (t1 + period) t hR hnow hkB]
    exact ih (k + 1) (fun u hu => hts u (List.mem_cons_of_mem _ hu))
      (by rw [List.length_cons] at hk; omega)

/-! ## Claims -/

/-- C4: for every job undergoing initialization, if the search call itself
errors non-recoverably then the job's status becomes `failed` and its
`error` field is set to the cause (the `catch` of `initializeJob`). -/
theorem initializeJob_search_error_fails (fallbackResult : Except String (List ℕ))
    (job : JobState) (e : String) :
    (initializeJob (.error e) fallbackResult job).status = .failed ∧
    (initializeJob (.error e) fallbackResult job).error = some e := by
  constructor <;> rfl

/-- C7 counterexample: a job created with `options.maxItems = 0` whose
search resolves one candidate id ends initialization with
`totalObjects = 1 > 0 = maxItems`, because the JS truthiness test
`job.options.maxItems && ...` skips the truncation for a zero cap. -/
theorem maxItems_zero_counterexample :
    (({ options := { maxItems := 0 } } : JobState).options.maxItems = 0) ∧
    (initializeJob (.ok [5]) (.ok []) { options := { maxItems := 0 } }).totalObjects >
      ({ options := { maxItems := 0 } } : JobState).options.maxItems := by
  constructor
  · rfl
  · decide

/-- C7 amended: for every job created with `options.maxItems = N > 0`,
initialization leaves `totalObjects ≤ N`, and the processing loop never
changes `totalObjects`, so every terminal state satisfies the bound. -/
theorem maxItems_bound :
    (∀ (resolveIds fallbackResult : Except String (List ℕ)) (job : JobState),
      0 < job.options.maxItems → job.totalObjects = 0 →
      (initializeJob resolveIds fallbackResult job).totalObjects ≤ job.options.maxItems) ∧
    (∀ (oracle : ℕ → ItemOutcome) (now : ℕ) (job : JobState),
      (processJob oracle now job).1.totalObjects = job.totalObjects) := by
  constructor
  · intro resolveIds fallbackResult job hN h0
    cases resolveIds with
    | error e => simp [initializeJob, h0]
    | ok ids0 =>
      cases hf : (if ids0.length = 0 then fallbackResult else Except.ok ids0) with
      | error e =>
        simp only [initializeJob, hf]
        omega
      | ok ids1 =>
        simp only [initializeJob, hf]
        split
        · rename_i hcond
          simp
        · rename_i hcond
          simp only [not_and, not_lt] at hcond
          exact hcond hN.ne' hN

  · intro oracle now job
    exact (processLoop_fields oracle now _ _).2

/-- C7 witness: the amended bound applied at a concrete job with
`maxItems = 2` and three resolved ids, and preservation at a concrete
run. -/
theorem maxItems_bound_witness :
    (initializeJob (.ok [7, 8, 9]) (.ok [])
      { options := { maxItems := 2 } }).totalObjects ≤ 2 ∧
    (processJob oracleAllSucceed 0 resumingJob).1.totalObjects = resumingJob.totalObjects :=
  ⟨maxItems_bound.1 (.ok [7, 8, 9]) (.ok []) { options := { maxItems := 2 } }
      (by decide) rfl,
    maxItems_bound.2 oracleAllSucceed 0 resumingJob⟩

/-- C8: an item whose record is not found, or which fails the
eligibility predicate (not public domain, or no primary image), is a
no-op: `processArtwork` returns `null`, and the loop body then leaves
the job record unchanged (no `processedIds`, `failedIds` or `results`
entry). -/
theorem ineligible_item_noop :
    (∀ (getDetails : ℕ → Option Artwork) (download : String → ℕ → Option String)
      (generate : Artwork → Descriptions)
      (upload : Artwork → String → String → String → List String → List String → ℚ →
        Except String String) (currentYear : ℤ) (objectId : ℕ) (options : JobOptions),
      getDetails objectId = none →
      processArtwork getDetails download generate upload currentYear objectId options = none) ∧
    (∀ (getDetails : ℕ → Option Artwork) (download : String → ℕ → Option String)
      (generate : Artwork → Descriptions)
      (upload : Artwork → String → String → String → List String → List String → ℚ →
        Except String String) (currentYear : ℤ) (objectId : ℕ) (options : JobOptions)
      (a : Artwork), getDetails objectId = some a →
      (a.isPublicDomain = false ∨ a.primaryImage = "") →
      processArtwork getDetails download generate upload currentYear objectId options = none) ∧
    (∀ (oracle : ℕ → ItemOutcome) (now : ℕ) (job : JobState) (objectId : ℕ),
      oracle objectId = .skip → processItem oracle now job objectId = .proceed job) := by
  refine ⟨?_, ?_, ?_⟩
  · intro getDetails download generate upload currentYear objectId options h
    simp [processArtwork, h]
  · intro getDetails download generate upload currentYear objectId options a h h2
    rcases h2 with h2 | h2 <;> simp [processArtwork, h, h2]
  · intro oracle now job objectId ho
    cases hc : job.processedIds.contains objectId with
    | true => exact processItem_contains_eq oracle now job objectId hc
    | false => exact processItem_skip_eq oracle now job objectId hc ho

/-- C8 witness: the three no-op facts at concrete inputs: a missing
record, a record without a primary image, and a skip outcome in the
loop. -/
theorem ineligible_item_noop_witness :
    processArtwork (fun _ => none) (fun _ _ => none) (fun _ => {})
      (fun _ _ _ _ _ _ _ => .error "down") 2025 7 {} = none ∧
    processArtwork (fun _ => some { isPublicDomain := true }) (fun _ _ => none) (fun _ => {})
      (fun _ _ _ _ _ _ _ => .error "down") 2025 7 {} = none ∧
    processItem (fun _ => .skip) 0 resumingJob 1 = .proceed resumingJob :=
  ⟨ineligible_item_noop.1 (fun _ => none) (fun _ _ => none) (fun _ => {})
      (fun _ _ _ _ _ _ _ => .error "down") 2025 7 {} rfl,
    ineligible_item_noop.2.1 (fun _ => some { isPublicDomain := true }) (fun _ _ => none)
      (fun _ => {}) (fun _ _ _ _ _ _ _ => .error "down") 2025 7 {} { isPublicDomain := true } rfl
      (Or.inr rfl),
    ineligible_item_noop.2.2 (fun _ => .skip) 0 resumingJob 1 rfl⟩

/-- C10: `calculateProgress` returns 0 whenever `totalObjects = 0`, and a
job initialized with an empty candidate list is completed by the
processing loop with progress 0, never 100. -/
theorem empty_job_completes_with_zero_progress :
    (∀ job : JobState, job.totalObjects = 0 → calculateProgress job = 0) ∧
    (∀ (oracle : ℕ → ItemOutcome) (now : ℕ) (job : JobState),
      job.objectIds = [] → job.progress = 0 →
      (processJob oracle now job).1.status = .completed ∧
      (processJob oracle now job).1.progress = 0 ∧
      (processJob oracle now job).1.progress ≠ 100) := by
  constructor
  · intro job h
    unfold calculateProgress
    rw [if_pos h]
  · intro oracle now job ho hp
    have heq : processJob oracle now job =
        ({ { job with status := JobStatus.processing } with
            status := .completed, completedAt := some now }, []) := by
      unfold processJob
      simp only [ho, List.drop_nil, processLoop_nil_eq]
    rw [heq]
    refine ⟨rfl, hp, ?_⟩
    simp [hp]

/-- C10 witness: the two facts at a concrete empty job. -/
theorem empty_job_completes_with_zero_progress_witness :
    calculateProgress {} = 0 ∧
    ((processJob oracleAllSucceed 5 {}).1.status = .completed ∧
      (processJob oracleAllSucceed 5 {}).1.progress = 0 ∧
      (processJob oracleAllSucceed 5 {}).1.progress ≠ 100) :=
  ⟨empty_job_completes_with_zero_progress.1 {} rfl,
    empty_job_completes_with_zero_progress.2 oracleAllSucceed 5 {} rfl rfl⟩

/-- C1: the Job-record invariant (`processedIds ⊆ objectIds`, no
duplicates in `processedIds`, `progress = round(100 * |processedIds| /
max(1, totalObjects))`, together with `totalObjects = |objectIds|`) is
established by initialization from a fresh pending record, is preserved
by every per-item step of the loop on an id of the job, and is preserved
by a whole `processJob` run into any terminal or paused state. -/
theorem job_record_invariant :
    (∀ (resolveIds fallbackResult : Except String (List ℕ)) (job : JobState),
      job.processedIds = [] → job.progress = 0 → job.objectIds = [] → job.totalObjects = 0 →
      jobInvariantFull (initializeJob resolveIds fallbackResult job)) ∧
    (∀ (oracle : ℕ → ItemOutcome) (now : ℕ) (job : JobState) (objectId : ℕ),
      objectId ∈ job.objectIds → jobInvariantFull job →
      jobInvariantFull (processItem oracle now job objectId).state) ∧
    (∀ (oracle : ℕ → ItemOutcome) (now : ℕ) (job : JobState),
      jobInvariantFull job → jobInvariantFull (processJob oracle now job).1) := by
  refine ⟨?_, processItem_inv, ?_⟩
  · intro resolveIds fallbackResult job hp hpr ho ht
    cases resolveIds with
    | error e =>
      simp [initializeJob, jobInvariantFull, jobInvariant, hp, hpr, ho, ht, claimProgress_zero]
    | ok ids0 =>
      cases hf : (if ids0.length = 0 then fallbackResult else Except.ok ids0) with
      | error e =>
        simp only [initializeJob, hf]
        simp [jobInvariantFull, jobInvariant, hp, hpr, ho, ht, claimProgress_zero]
      | ok ids1 =>
        simp only [initializeJob, hf]
        simp [jobInvariantFull, jobInvariant, hp, hpr, claimProgress_zero]
  · intro oracle now job hinv
    have h0 : jobInvariantFull { job with status := JobStatus.processing } := hinv
    have := processLoop_inv oracle now
      ({ job with status := JobStatus.processing }.objectIds.drop
        { job with status := JobStatus.processing }.processedIds.length)
      { job with status := JobStatus.processing }
      (fun x hx => List.drop_subset _ _ hx) h0
    exact this

/-- C1 witness: the three parts applied at concrete records: a fresh
pending job initialized with two ids, one loop step on a concrete job
satisfying the invariant, and a full run of the same job. -/
theorem job_record_invariant_witness :
    jobInvariantFull (initializeJob (.ok [4, 9]) (.ok []) {}) ∧
    jobInvariantFull (processItem oracleAllSucceed 0
      { status := .initialized, objectIds := [4, 9], totalObjects := 2 } 4).state ∧
    jobInvariantFull (processJob oracleAllSucceed 0
      { status := .initialized, objectIds := [4, 9], totalObjects := 2 }).1 :=
  ⟨job_record_invariant.1 (.ok [4, 9]) (.ok []) {} rfl rfl rfl rfl,
    job_record_invariant.2.1 oracleAllSucceed 0
      { status := .initialized, objectIds := [4, 9], totalObjects := 2 } 4
      (by decide) (by unfold jobInvariantFull jobInvariant claimProgress jsRound; norm_num),
    job_record_invariant.2.2 oracleAllSucceed 0
      { status := .initialized, objectIds := [4, 9], totalObjects := 2 }
      (by unfold jobInvariantFull jobInvariant claimProgress jsRound; norm_num)⟩

/-- C6: when every pipeline step up to publishing succeeds and the
Shopify upload throws, `processArtwork` still returns a result entry
that carries the non-empty item-level error string and no
`shopifyProductId`, with `processed = true`; the loop body then appends
the id to `processedIds` and the entry to `results`, leaves `failedIds`
alone and does not change the job's status. -/
theorem publish_failure_item_still_processed :
    (∀ (getDetails : ℕ → Option Artwork) (download : String → ℕ → Option String)
      (generate : Artwork → Descriptions)
      (upload : Artwork → String → String → String → List String → List String → ℚ →
        Except String String)
      (currentYear : ℤ) (objectId : ℕ) (options : JobOptions) (a : Artwork)
      (imagePath m : String),
      getDetails objectId = some a → a.isPublicDomain = true → a.primaryImage ≠ "" →
      download a.primaryImage objectId = some imagePath →
      options.skipShopifyUpload = false →
      upload a (generate a).shortDescription (generate a).expandedDescription imagePath
        (getEraCollections currentYear a.objectBeginDate ++ (getThemeCollections a).1)
        (getThemeCollections a).2
        (if options.defaultPrice ≠ 0 then options.defaultPrice else 99.99) = .error m →
      ∃ r : ResultEntry,
        processArtwork getDetails download generate upload currentYear objectId options =
          some r ∧
        r.error = some ("Shopify upload failed: " ++ m) ∧
        ("Shopify upload failed: " ++ m).length > 0 ∧
        r.shopifyProductId = none ∧ r.processed = true) ∧
    (∀ (oracle : ℕ → ItemOutcome) (now : ℕ) (job : JobState) (objectId : ℕ)
      (r : ResultEntry),
      oracle objectId = .success r → job.processedIds.contains objectId = false →
      ∃ j : JobState, processItem oracle now job objectId = .proceed j ∧
        j.processedIds = job.processedIds ++ [objectId] ∧
        j.results = job.results ++ [r] ∧
        j.failedIds = job.failedIds ∧
        j.status = job.status) := by
  constructor
  · intro getDetails download generate upload currentYear objectId options a imagePath m
      hdet hpub himg hdl hskip hup
    have heq : processArtwork getDetails download generate upload currentYear objectId
        options = some
        { objectId := objectId, title := a.title,
          artist := if a.artistDisplayName ≠ "" then a.artistDisplayName
            else "Unknown Artist",
          date := if a.objectDate ≠ "" then a.objectDate else "Unknown",
          imageUrl := a.primaryImage,
          rawDescription := (generate a).rawDescription,
          shortDescription := (generate a).shortDescription,
          expandedDescription := (generate a).expandedDescription,
          collections := getEraCollections currentYear a.objectBeginDate ++
            (getThemeCollections a).1,
          tags := (getThemeCollections a).2,
          year := a.objectBeginDate,
          error := some ("Shopify upload failed: " ++ m),
          processed := true } := by
      simp only [processArtwork, hdet]
      rw [if_neg (by simp [hpub, himg])]
      simp only [hdl]
      rw [if_pos (by simp [hskip]), hup]
    refine ⟨_, heq, rfl, ?_, rfl, rfl⟩
    rw [String.length_append]
    have h23 : ("Shopify upload failed: " : String).length = 23 := rfl
    omega
  · intro oracle now job objectId r ho hc
    exact ⟨_, processItem_success_eq oracle now job objectId r hc ho, rfl, rfl, rfl, rfl⟩

/-- C6 witness: a concrete eligible artwork whose upload oracle throws
`"boom"`, and the corresponding loop step on a concrete job. -/
theorem publish_failure_item_still_processed_witness :
    (∃ r : ResultEntry,
      processArtwork (fun _ => some { isPublicDomain := true, primaryImage := "u" })
        (fun _ _ => some "p") (fun _ => {}) (fun _ _ _ _ _ _ _ => .error "boom")
        2025 3 {} = some r ∧
      r.error = some ("Shopify upload failed: " ++ "boom") ∧
      ("Shopify upload failed: " ++ "boom").length > 0 ∧
      r.shopifyProductId = none ∧ r.processed = true) ∧
    (∃ j : JobState,
      processItem (fun _ => .success { objectId := 3 }) 9 { status := .processing } 3 =
        .proceed j ∧
      j.processedIds = ([] : List ℕ) ++ [3] ∧
      j.results = ([] : List ResultEntry) ++ [{ objectId := 3 }] ∧
      j.failedIds = ([] : List ℕ) ∧
      j.status = JobStatus.processing) :=
  ⟨publish_failure_item_still_processed.1
      (fun _ => some { isPublicDomain := true, primaryImage := "u" }) (fun _ _ => some "p")
      (fun _ => {}) (fun _ _ _ _ _ _ _ => .error "boom") 2025 3 {}
      { isPublicDomain := true, primaryImage := "u" } "p" "boom"
      rfl rfl (by decide) rfl rfl rfl,
    publish_failure_item_still_processed.2 (fun _ => .success { objectId := 3 }) 9
      { status := .processing } 3 { objectId := 3 } rfl rfl⟩

/-- C9: `searchObjects` is total over its own error sites: if the
initial Rate-Governor check throws (a throttled signal) it returns the
empty list, and if the upstream search HTTP call fails it returns the
empty list; neither error propagates to the caller. -/
theorem searchObjects_total_over_errors :
    (∀ (sig : ThrottleSignal)
      (httpSearch : SearchParams → Except String (Option (List ℕ)))
      (details : ℕ → Option Artwork) (rateThrottled : ℕ → Bool) (query : SearchQuery),
      searchObjects (.error sig) httpSearch details rateThrottled query = []) ∧
    (∀ (httpSearch : SearchParams → Except String (Option (List ℕ)))
      (details : ℕ → Option Artwork) (rateThrottled : ℕ → Bool) (query : SearchQuery)
      (e : String),
      httpSearch (buildSearchParams query) = .error e →
      searchObjects (.ok ()) httpSearch details rateThrottled query = []) := by
  constructor
  · intro sig httpSearch details rateThrottled query
    rfl
  · intro httpSearch details rateThrottled query e he
    simp only [searchObjects, he]

/-- C9 witness: the second part applied at a concrete failing HTTP
oracle and the default query. -/
theorem searchObjects_total_over_errors_witness :
    searchObjects (.ok ()) (fun _ => .error "HTTP 500") (fun _ => none) (fun _ => false)
      {} = [] :=
  searchObjects_total_over_errors.2 (fun _ => .error "HTTP 500") (fun _ => none)
    (fun _ => false) {} "HTTP 500" rfl

/-- C5 (the code evaluated at the failing input): a candidate set of 21
ids that all resolve to eligible paintings matching the classification
filter — a 100% match rate in the initial batch of 20, well above the
30% threshold, and below the 100-id cap — still yields only the first
20 ids: `postFilterResults` returns right after the initial batch, so
the 21st id is never fetched or filtered, contrary to the documented
extension step (whose code sits unreachable after the `return`). -/
theorem postFilter_stops_after_initial_batch :
    postFilterResults detailsAllPaintings (fun _ => false)
      { classification := "Paintings" } (List.range 21) = List.range 20 ∧
    (20 : ℕ) ∈ List.range 21 ∧ (20 : ℕ) ∉ List.range 20 := by
  refine ⟨by decide, by decide, by decide⟩

/-- C2 counterexample: (i) a `paused(rate_limit)` job with
`resumeAfter = 1000` resumed through the resume route at time 500 —
before `resumeAfter` — is not a no-op: its status changes from `paused`
to `initialized`; (ii) on resume, a job whose id 1 was attempted and
failed earlier (`failedIds = [1]`) re-attempts id 1, because the loop
restarts at index `|processedIds| = 0`: the attempted ids are `[1, 2]`,
re-processing an id attempted earlier. -/
theorem resume_claim_counterexample :
    Except.map JobState.status (resumeRoute 500 pausedAt1000) = .ok .initialized ∧
    pausedAt1000.status = .paused ∧ pausedAt1000.resumeAfter = some 1000 ∧ (500 : ℕ) < 1000 ∧
    (processJob oracleAllSucceed 0 resumingJob).2 = [1, 2] ∧
    1 ∈ resumingJob.failedIds :=
  ⟨rfl, rfl, rfl, by decide, rfl, by decide⟩

/-- C2 amended: the scheduler never selects a `paused(rate_limit)` job
before `resumeAfter` (so automatic resumption is a no-op until then),
but the manual resume route sets any paused job to `initialized`
unconditionally; on resume, the loop restarts at index `|processedIds|`
of `objectIds`, so when `processedIds` is exactly the prefix of
`objectIds` handled so far (no earlier failure or skip) the next
unprocessed id is retried first and no id of `processedIds` is
re-attempted — ids that previously failed or were skipped are instead
re-attempted, as the counterexample shows. -/
theorem resume_semantics :
    (∀ (now t : ℕ) (job : JobState), job.status = .paused →
      job.pauseReason = some .rate_limit → job.resumeAfter = some t → now < t →
      eligibleForProcessing now job = false) ∧
    (∀ (now : ℕ) (job : JobState), job.status = .paused →
      resumeRoute now job = .ok (updateStatus job .initialized none now) ∧
      (updateStatus job .initialized none now).status = .initialized) ∧
    (∀ (oracle : ℕ → ItemOutcome) (now k : ℕ) (job : JobState),
      job.processedIds = job.objectIds.take k → k < job.objectIds.length →
      job.objectIds.Nodup →
      (processJob oracle now job).2.head? = job.objectIds.get? k ∧
      ∀ a ∈ (processJob oracle now job).2, a ∉ job.processedIds) := by
  refine ⟨?_, ?_, ?_⟩
  · intro now t job hstat hreason hresume hlt
    simp [eligibleForProcessing, hstat, hreason, hresume]
    omega
  · intro now job hstat
    refine ⟨by rw [resumeRoute, if_pos hstat], ?_⟩
    simp [updateStatus]
  · intro oracle now k job hpk hk hnodup
    have hlen : job.processedIds.length = k := by
      rw [hpk, List.length_take]
      exact min_eq_left hk.le
    have hdrop : job.objectIds.drop k =
        job.objectIds.get ⟨k, hk⟩ :: job.objectIds.drop (k + 1) :=
      List.drop_eq_get_cons hk
    have hvdrop : job.objectIds.get ⟨k, hk⟩ ∈ job.objectIds.drop k := by
      rw [hdrop]
      exact List.mem_cons_self _ _
    have hvtake : job.objectIds.get ⟨k, hk⟩ ∉ job.objectIds.take k := by
      intro hmem
      have hsplit := List.take_append_drop k job.objectIds
      rw [← hsplit] at hnodup
      exact (List.nodup_append.mp hnodup).2.2 hmem hvdrop
    have hvproc : job.objectIds.get ⟨k, hk⟩ ∉ job.processedIds := hpk ▸ hvtake
    have hc : job.processedIds.contains (job.objectIds.get ⟨k, hk⟩) = false :=
      not_mem_contains_false hvproc
    have hjob : processJob oracle now job =
        processLoop oracle now (job.objectIds.drop job.processedIds.length)
          { job with status := JobStatus.processing } := rfl
    constructor
    · rw [hjob, hlen, hdrop,
        processLoop_attempts_head oracle now { job with status := JobStatus.processing }
          (job.objectIds.get ⟨k, hk⟩) (job.objectIds.drop (k + 1)) hc,
        List.get?_eq_get hk]
    · intro a ha
      rw [hjob] at ha
      exact processLoop_attempts_not_mem oracle now _
        { job with status := JobStatus.processing } a ha

/-- C2 witness: the amended semantics at concrete inputs: the paused
job at 1000 ms is ineligible at 500 ms; the route resumes it at 700 ms;
and a job with `processedIds = take 1 [4, 9]` retries exactly id 9 on
resume, touching no processed id. -/
theorem resume_semantics_witness :
    eligibleForProcessing 500 pausedAt1000 = false ∧
    (resumeRoute 700 pausedAt1000 = .ok (updateStatus pausedAt1000 .initialized none 700) ∧
      (updateStatus pausedAt1000 .initialized none 700).status = .initialized) ∧
    ((processJob oracleAllSucceed 0 takeOneJob).2.head? = takeOneJob.objectIds.get? 1 ∧
      ∀ a ∈ (processJob oracleAllSucceed 0 takeOneJob).2,
        a ∉ takeOneJob.processedIds) :=
  ⟨resume_semantics.1 500 1000 pausedAt1000 rfl rfl rfl (by decide),
    resume_semantics.2.1 700 pausedAt1000 rfl,
    resume_semantics.2.2 oracleAllSucceed 0 1 takeOneJob
      (by decide) (by decide) (by decide)⟩

/-- C3 counterexample: with the `shopify` budget (2 requests per
1000 ms window), two calls at time 0 succeed and the third call at 900
(within the window) fails — so far as claimed — but a call at 1100,
issued after the window `[0, 1000]` has elapsed, still fails, because
the failing call armed the hard-throttled flag for a full period from
its own time (`resumeAt = 1900`), not for the remaining window. -/
theorem checkBudget_claim_counterexample :
    (runCalls "shopify" shopifyLimit [0, 0]).1 = true ∧
    (checkRateLimit "shopify" 900 (runCalls "shopify" shopifyLimit [0, 0]).2).1 =
      .error ⟨"shopify", 1⟩ ∧
    shopifyLimit.period < 1100 ∧
    (checkRateLimit "shopify" 1100
      (checkRateLimit "shopify" 900 (runCalls "shopify" shopifyLimit [0, 0]).2).2).1 =
      .error ⟨"shopify", 1⟩ :=
  ⟨rfl, rfl, by decide, rfl⟩

/-- C3 amended: for a request-budgeted service (any `service ≠ "openai"`),
budget-many calls within one window all succeed; the next call within
the same window fails with a throttled signal whose retry-after is at
most the window length and arms the hard-throttled flag until the
failing call's time plus the window; calls succeed again once both the
original window has strictly elapsed and that armed resume time has
been reached. -/
theorem checkBudget_window_behavior (service : String) (period t1 t2 t3 : ℕ)
    (rest : List ℕ) (hsvc : service ≠ "openai") (hper : 0 < period)
    (hdiv : 1000 ∣ period) (hrest : ∀ t ∈ rest, t ≤ t1 + period)
    (ht2 : t2 ≤ t1 + period) (ht3a : t2 + period ≤ t3) (ht3b : t1 + period < t3) :
    runCalls service { requests := (t1 :: rest).length, period := period } (t1 :: rest) =
      (true,
        { requests := (t1 :: rest).length, period := period,
          current := (t1 :: rest).length, resetAt := some (t1 + period) }) ∧
    checkRateLimit service t2
      { requests := (t1 :: rest).length, period := period,
        current := (t1 :: rest).length, resetAt := some (t1 + period) } =
      (.error ⟨service, ceilDiv1000 period⟩,
        { requests := (t1 :: rest).length, period := period,
          current := (t1 :: rest).length, resetAt := some (t1 + period),
          rateLimited := true, resumeAt := some (t2 + period) }) ∧
    ceilDiv1000 period * 1000 = period ∧
    (checkRateLimit service t3
      { requests := (t1 :: rest).length, period := period,
        current := (t1 :: rest).length, resetAt := some (t1 + period),
        rateLimited := true, resumeAt := some (t2 + period) }).1 = .ok () := by
  have hR : t1 + period ≠ 0 := by omega
  have hceil : ceilDiv1000 period * 1000 = period := by
    obtain ⟨c, rfl⟩ := hdiv
    unfold ceilDiv1000
    omega
  refine ⟨?_, ?_, hceil, ?_⟩
  · have hfirst := checkRateLimit_first service hsvc (rest.length + 1) period t1
      (by omega)
    have hrun := runCalls_within service hsvc (rest.length + 1) period t1 hper rest 1
      hrest (by omega)
    simp only [List.length_cons, runCalls, hfirst, hrun]
    rw [Nat.add_comm 1 rest.length]
  · exact checkRateLimit_exhausted service hsvc (t1 :: rest).length period (t1 + period)
      t2 hR (by omega)
  · rw [checkRateLimit_recover service hsvc (t1 :: rest).length period
      (t1 :: rest).length (t1 + period) (t2 + period) t3 ht3a ht3b hR (by simp)]

/-- C3 witness: the amended behaviour at the concrete `shopify` budget:
calls at 0 and 0 succeed, the third call at 500 fails with a 1-second
retry-after (= the 1000 ms window), and a call at 1600 (past both the
window end 1000 and the armed resume time 1500) succeeds. -/
theorem checkBudget_window_behavior_witness :
    runCalls "shopify" { requests := ([0, 0] : List ℕ).length, period := 1000 } [0, 0] =
      (true,
        { requests := ([0, 0] : List ℕ).length, period := 1000,
          current := ([0, 0] : List ℕ).length, resetAt := some (0 + 1000) }) ∧
    checkRateLimit "shopify" 500
      { requests := ([0, 0] : List ℕ).length, period := 1000,
        current := ([0, 0] : List ℕ).length, resetAt := some (0 + 1000) } =
      (.error ⟨"shopify", ceilDiv1000 1000⟩,
        { requests := ([0, 0] : List ℕ).length, period := 1000,
          current := ([0, 0] : List ℕ).length, resetAt := some (0 + 1000),
          rateLimited := true, resumeAt := some (500 + 1000) }) ∧
    ceilDiv1000 1000 * 1000 = 1000 ∧
    (checkRateLimit "shopify" 1600
      { requests := ([0, 0] : List ℕ).length, period := 1000,
        current := ([0, 0] : List ℕ).length, resetAt := some (0 + 1000),
        rateLimited := true, resumeAt := some (500 + 1000) }).1 = .ok () :=
  checkBudget_window_behavior "shopify" 1000 0 500 1600 [0]
    (by decide) (by decide) (by decide) (by decide) (by decide) (by decide) (by decide)

end Scrapper
